import Mathlib

/-!
Shallow embedding of the background polling worker of `app.py`
(`_lead_already_processed`, `_pick_random_api_key`, the per-item task
body `_run`, and the cycle logic of `_worker_loop`), together with a
transition system for the `asyncio.Semaphore`-based concurrency gate.

External effects (the Supabase store, the `stage3.process_leads`
transformation call, and the random source behind `random.choice`) are
modelled as an explicit environment `Env` supplying the observable
results of each external call.
-/

namespace Worker

/-- The four result tags the task body `_run` can return
(`"processed"`, `"skipped"`, `"no_key"`, `"error"`). -/
inductive Outcome where
  | processed
  | skipped
  | no_key
  | error
deriving DecidableEq, Repr

/-- Log phases appearing in the worker logger lines. -/
inductive Phase where
  | START
  | DONE
  | SKIP
  | ERROR
deriving DecidableEq, Repr

/-- One `_worker_logger` line: phase plus the identifying fields
interpolated into the message (lead_id, name, api_key when present). -/
structure LogEvent where
  phase : Phase
  lead_id : Option String
  name : Option String
  api_key : Option String
deriving DecidableEq, Repr

/-- One row returned by the eligibility RPC
`rpc_get_eligible_llm_jobs_v2`: the lead fields read by
`_process_row` plus the per-batch contextual parameters.  All fields are
optional strings, as `row.get(...)` may yield `None`. -/
structure Row where
  lead_id : Option String := none
  tag : Option String := none
  name : Option String := none
  title : Option String := none
  location : Option String := none
  company_name : Option String := none
  experience : Option String := none
  skills : Option String := none
  bio : Option String := none
  profile_url : Option String := none
  linkedin_url : Option String := none
  company_page_url : Option String := none
  wildnet_data : Option String := none
  scoring_criteria_and_icp : Option String := none
  message_prompt : Option String := none
deriving DecidableEq, Repr

/-- Observable behaviour of the external collaborators during one cycle:
the store queries, the transformation call, and the random index source.
A `.error ()` value stands for the corresponding Python call raising. -/
structure Env where
  /-- Result of `sb.rpc("rpc_get_eligible_llm_jobs_v2", {}).execute()`:
  either the fetched rows or a raised exception. -/
  fetchResult : Except Unit (List Row)
  /-- Rows of `llm_response` matching a given lead_id (ground truth the
  existence-check query would return when it succeeds). -/
  llmResponseRows : String → List Unit
  /-- Whether the existence-check query raises for a given lead_id. -/
  llmQueryFails : String → Bool
  /-- Whether the best-effort `sent_to_llm` update raises
  for a given lead_id (swallowed by the inner `except`). -/
  markSettledFails : String → Bool
  /-- The `api_key` field of each row of the `gemini_api` table
  (`None` when the column is null). -/
  geminiRows : List (Option String)
  /-- Whether the credential-pool query raises. -/
  geminiQueryFails : Bool
  /-- Random index source: the index `random.choice` draws for the
  i-th dispatched task of the batch. -/
  choice : Nat → Nat
  /-- Result of the `stage3.process_leads` call made by `_process_row`
  for a given row and api key: success or a raised exception. -/
  processRowResult : Row → String → Except Unit Unit
  /-- Abstract reading of the cycle's elapsed monotonic wall time. -/
  elapsed : Nat

/-- Embedding of `_lead_already_processed(sb, lead_id)`: `False` for a
missing or empty lead_id; otherwise an existence check on
`llm_response` limited to one row, with any exception swallowed into
`False`. -/
def lead_already_processed (env : Env) (lead_id : Option String) : Bool :=
  match lead_id with
  | none => false
  | some s =>
    if s = "" then false
    else if env.llmQueryFails s then false
    else ((env.llmResponseRows s).take 1).length > 0

/-- Embedding of `_pick_random_api_key(sb)`: fetch the full
`gemini_api` pool, return `None` on a raised exception or an empty
pool, otherwise the `api_key` field of the row at the uniformly drawn
index (`random.choice`), which may itself be `None`. -/
def pick_random_api_key (env : Env) (c : Nat) : Option String :=
  if env.geminiQueryFails then none
  else if env.geminiRows.isEmpty then none
  else (env.geminiRows).getD (c % env.geminiRows.length) none

/-- What one task body `_run` produces: its returned outcome tag, the
worker-logger events it emitted in order, and whether it reached the
`_process_row` transformation call. -/
structure RunResult where
  outcome : Outcome
  logs : List LogEvent
  invokedTransform : Bool
deriving DecidableEq, Repr

/-- Embedding of the task body `_run(row)` dispatched for the `i`-th row
of the batch: idempotency guard (skip with a `SKIP` log and a
best-effort settled mark), credential pick (`no_key` on a falsy key,
i.e. `None` or the empty string), then `START` log, transformation
call, and `DONE` log on success; any exception from the transformation
call is swallowed into an `ERROR` log and the `"error"` tag. -/
def run (env : Env) (i : Nat) (row : Row) : RunResult :=
  if lead_already_processed env row.lead_id then
    { outcome := .skipped
      logs := [⟨.SKIP, row.lead_id, row.name, none⟩]
      invokedTransform := false }
  else
    match pick_random_api_key env (env.choice i) with
    | none => { outcome := .no_key, logs := [], invokedTransform := false }
    | some k =>
      if k = "" then { outcome := .no_key, logs := [], invokedTransform := false }
      else
        match env.processRowResult row k with
        | .ok _ =>
          { outcome := .processed
            logs := [⟨.START, row.lead_id, row.name, some k⟩,
                     ⟨.DONE, row.lead_id, row.name, some k⟩]
            invokedTransform := true }
        | .error _ =>
          { outcome := .error
            logs := [⟨.START, row.lead_id, row.name, some k⟩,
                     ⟨.ERROR, row.lead_id, row.name, some k⟩]
            invokedTransform := true }

/-- One task per fetched row, in dispatch order. -/
def runBatch (env : Env) (rows : List Row) : List RunResult :=
  ((List.range rows.length).zip rows).map (fun p => run env p.1 p.2)

/-- `sum(1 for r in results if r == "processed")`. -/
def processedCount (l : List Outcome) : Nat :=
  l.countP (fun r => r == Outcome.processed)

/-- `sum(1 for r in results if r in ("skipped", "no_key"))`. -/
def skippedCount (l : List Outcome) : Nat :=
  l.countP (fun r => r == Outcome.skipped || r == Outcome.no_key)

/-- `sum(1 for r in results if r == "error")`. -/
def errorCount (l : List Outcome) : Nat :=
  l.countP (fun r => r == Outcome.error)

/-- The per-cycle `CYCLE` console line: totals, the three aggregated
counts, and the elapsed duration. -/
structure Summary where
  total : Nat
  processed : Nat
  skipped : Nat
  errors : Nat
  duration : Nat
deriving DecidableEq, Repr

/-- The two `asyncio.sleep` calls of the loop: the poll interval
(`POLL_INTERVAL_SEC`, default 5 seconds) and the fixed `0.1`-second
pause between batches. -/
inductive SleepEvent where
  | poll
  | pause
deriving DecidableEq, Repr

/-- Default of `POLL_INTERVAL_SEC` (seconds). -/
def POLL_INTERVAL_SEC_DEFAULT : Nat := 5

/-- Default of `MAX_CONCURRENCY`. -/
def MAX_CONCURRENCY_DEFAULT : Nat := 3

/-- Observable output of one iteration of the `while True` cycle:
worker-logger events, the printed `CYCLE` summary (if any), and the
sleeps performed, in order. -/
structure CycleOut where
  logs : List LogEvent
  summary : Option Summary
  sleeps : List SleepEvent
deriving DecidableEq, Repr

/-- Embedding of one iteration of `_worker_loop`'s `while True` body:
fetch; on an empty batch print an all-zero summary and sleep the poll
interval; otherwise run one task per row, aggregate the outcome counts,
pause `0.1` s and print the summary.  Any exception escaping the body
(here: the fetch raising) is caught by the cycle-level
`except Exception`, which emits nothing and sleeps the poll interval. -/
def workerCycle (env : Env) : CycleOut :=
  match env.fetchResult with
  | .error _ => { logs := [], summary := none, sleeps := [.poll] }
  | .ok rows =>
    if rows.isEmpty then
      { logs := []
        summary := some ⟨0, 0, 0, 0, env.elapsed⟩
        sleeps := [.poll] }
    else
      let results := runBatch env rows
      let outs := results.map RunResult.outcome
      { logs := (results.map RunResult.logs).flatten
        summary := some ⟨rows.length, processedCount outs, skippedCount outs,
                         errorCount outs, env.elapsed⟩
        sleeps := [.pause] }

/-- The loop run for `n` cycles, the `i`-th cycle observing environment
`envs i`; the loop itself never stops on a caught exception, so every
cycle produces an output. -/
def workerLoop (envs : Nat → Env) (n : Nat) : List CycleOut :=
  (List.range n).map (fun i => workerCycle (envs i))

/-!
Transition system for the dispatch loop around `asyncio.Semaphore(MAX_CONCURRENCY)`.

The orchestrator performs `await sem.acquire()` and then
`asyncio.create_task(_run())` with no intervening await, so
acquire-and-launch is one atomic step; a task body exits its `try`
through the `finally: sem.release()` with no intervening await, so
body-exit-and-release is one atomic step.  A body exit is a normal
return (one of the four outcomes) or a `CancelledError` delivered at an
await inside the `try`; the `finally` runs in both cases.  Completion
order across tasks is unconstrained: any running task may finish at any
step, which quantifies over all interleavings.
-/

/-- Whether a dispatched task is still inside its body (holding the
permit acquired for it) or has exited through the `finally` (permit
released). -/
inductive TaskState where
  | running
  | completed
deriving DecidableEq, Repr

/-- How a task body exits: a normal return carrying one of the four
outcome tags, or cancellation. -/
inductive CompletionKind where
  | success (o : Outcome)
  | cancelled
deriving DecidableEq, Repr

/-- State of the gate during one batch: rows not yet dispatched, the
semaphore's current value, and the state of each task dispatched so
far (in dispatch order). -/
structure GateState where
  pending : Nat
  permits : Nat
  tasks : List TaskState
deriving DecidableEq, Repr

/-- Number of task bodies currently in flight (each holds one permit). -/
def runningCount (ts : List TaskState) : Nat :=
  ts.countP (fun t => t == TaskState.running)

/-- Number of tasks that have exited through their `finally`
(each has released exactly one permit). -/
def releasedCount (ts : List TaskState) : Nat :=
  ts.countP (fun t => t == TaskState.completed)

/-- One scheduler step of the dispatch loop. `dispatch` is
`await sem.acquire()` (enabled only when the semaphore is positive)
followed by `create_task`; `finish` is any running task's body exiting
— normally or by cancellation — through `finally: sem.release()`. -/
inductive GateStep : GateState → GateState → Prop where
  | dispatch (s : GateState) (hp : 0 < s.pending) (hq : 0 < s.permits) :
      GateStep s ⟨s.pending - 1, s.permits - 1, s.tasks ++ [.running]⟩
  | finish (s : GateState) (i : Nat) (k : CompletionKind)
      (hi : i < s.tasks.length) (h : s.tasks.getD i .completed = .running) :
      GateStep s ⟨s.pending, s.permits + 1, s.tasks.set i .completed⟩

/-- States reachable from the start of a batch of `batch` rows with a
fresh semaphore of capacity `N`, under any interleaving. -/
inductive GateReach (N batch : Nat) : GateState → Prop where
  | init : GateReach N batch ⟨batch, N, []⟩
  | step {s t : GateState} : GateReach N batch s → GateStep s t → GateReach N batch t

lemma countP_append_singleton (p : TaskState → Bool) (ts : List TaskState) (a : TaskState) :
    (ts ++ [a]).countP p = ts.countP p + (if p a then 1 else 0) := by
  simp [List.countP_append, List.countP_cons]

/-!
Concrete environments and rows used to evaluate the model on closed
inputs.
-/

/-- A lead whose id `"L1"` already has a row in `llm_response`
under `envOk`. -/
def rowA : Row := { lead_id := some "L1", name := some "Ann" }

/-- A fresh lead with id `"L2"`. -/
def rowB : Row := { lead_id := some "L2", name := some "Bob" }

/-- A fresh lead with id `"L3"`. -/
def rowC : Row := { lead_id := some "L3", name := some "Cal" }

/-- A lead whose `lead_id` field is absent. -/
def rowNoId : Row := { name := some "Dee" }

/-- A healthy environment: fetch returns `[rowA, rowB]`, `"L1"` already
has a recorded result, the credential pool holds two keys, all queries
succeed, and the transformation call succeeds. -/
def envOk : Env where
  fetchResult := .ok [rowA, rowB]
  llmResponseRows := fun s => if s = "L1" then [()] else []
  llmQueryFails := fun _ => false
  markSettledFails := fun _ => false
  geminiRows := [some "K1", some "K2"]
  geminiQueryFails := false
  choice := fun _ => 0
  processRowResult := fun _ _ => .ok ()
  elapsed := 7

/-- Like `envOk` but the existence-check query raises for every id. -/
def envQueryFail : Env := { envOk with llmQueryFails := fun _ => true }

/-- Like `envOk` but the credential pool query succeeds and returns a
single row whose `api_key` column is null. -/
def envNullKeyRow : Env := { envOk with geminiRows := [none] }

/-- Like `envOk` but the eligibility fetch raises. -/
def envFetchErr : Env := { envOk with fetchResult := .error () }

/-- Like `envOk` but the fetch returns no rows. -/
def envEmptyFetch : Env := { envOk with fetchResult := .ok [] }

/-- An environment where the fetch returns the single fresh `rowC`, no
lead has a recorded result, and the credential pool is empty. -/
def envNoKeyCycle : Env where
  fetchResult := .ok [rowC]
  llmResponseRows := fun _ => []
  llmQueryFails := fun _ => false
  markSettledFails := fun _ => false
  geminiRows := []
  geminiQueryFails := false
  choice := fun _ => 0
  processRowResult := fun _ _ => .ok ()
  elapsed := 4

lemma runningCount_append_running (ts : List TaskState) :
    runningCount (ts ++ [.running]) = runningCount ts + 1 := by
  simp [runningCount, List.countP_append, List.countP_cons]

lemma countP_set_running (ts : List TaskState) (i : Nat)
    (hi : i < ts.length) (h : ts.getD i .completed = .running) :
    runningCount (ts.set i .completed) + 1 = runningCount ts ∧
    releasedCount (ts.set i .completed) = releasedCount ts + 1 := by
  induction ts generalizing i with
  | nil => simp at hi
  | cons a l ih =>
    cases i with
    | zero =>
      simp only [List.getD_cons_zero] at h
      subst h
      simp [runningCount, releasedCount, List.countP_cons]
    | succ j =>
      have hi' : j < l.length := by simpa using hi
      have h' : l.getD j .completed = .running := by simpa using h
      have hrec := ih j hi' h'
      have hset : (a :: l).set (j + 1) TaskState.completed
          = a :: l.set j TaskState.completed := rfl
      rw [hset]
      simp only [runningCount, releasedCount, List.countP_cons] at hrec ⊢
      omega

lemma running_released_partition (ts : List TaskState) :
    releasedCount ts + runningCount ts = ts.length := by
  induction ts with
  | nil => simp [runningCount, releasedCount]
  | cons a l ih =>
    simp only [runningCount, releasedCount, List.countP_cons, List.length_cons] at ih ⊢
    cases a <;> simp <;> omega

/-- Conservation invariant of the gate: the semaphore value plus the
number of in-flight bodies is always the capacity, and
dispatched-plus-pending is always the batch size. -/
lemma gate_invariant {N batch : Nat} {s : GateState} (h : GateReach N batch s) :
    s.permits + runningCount s.tasks = N ∧ s.pending + s.tasks.length = batch := by
  induction h with
  | init => simp [runningCount]
  | step hr hs ih =>
    obtain ⟨ih1, ih2⟩ := ih
    cases hs with
    | dispatch hp hq =>
      dsimp only
      rw [runningCount_append_running]
      simp only [List.length_append, List.length_cons, List.length_nil]
      omega
    | finish i k hi hgd =>
      have hc := countP_set_running _ i hi hgd
      dsimp only
      simp only [List.length_set]
      omega

lemma counts_partition (l : List Outcome) :
    processedCount l + skippedCount l + errorCount l = l.length := by
  induction l with
  | nil => simp [processedCount, skippedCount, errorCount]
  | cons a l ih =>
    simp only [processedCount, skippedCount, errorCount, List.countP_cons,
      List.length_cons] at ih ⊢
    cases a <;> simp <;> omega

lemma runBatch_length (env : Env) (rows : List Row) :
    (runBatch env rows).length = rows.length := by
  simp [runBatch]

/-- C1: every task body of a batch returns exactly one of the four
outcome tags, and the counts computed by the aggregation step
(`processed_count`, `skipped_count` — which pools `"skipped"` with
`"no_key"` — and `error_count`) sum to the number of fetched rows. -/
theorem C1_outcome_counts_sum_to_batch (env : Env) (rows : List Row) :
    (∀ r ∈ runBatch env rows,
        r.outcome = Outcome.processed ∨ r.outcome = Outcome.skipped ∨
        r.outcome = Outcome.no_key ∨ r.outcome = Outcome.error) ∧
    processedCount ((runBatch env rows).map RunResult.outcome) +
      skippedCount ((runBatch env rows).map RunResult.outcome) +
      errorCount ((runBatch env rows).map RunResult.outcome) = rows.length := by
  constructor
  · intro r _
    cases h : r.outcome <;> simp
  · rw [counts_partition, List.length_map, runBatch_length]

/-- C1 witness: on the concrete two-row batch of `envOk` the counts
sum to the batch size 2, and the first task's outcome is one of the
four tags. -/
theorem C1_outcome_counts_sum_to_batch_witness :
    ((run envOk 0 rowA).outcome = Outcome.processed ∨
     (run envOk 0 rowA).outcome = Outcome.skipped ∨
     (run envOk 0 rowA).outcome = Outcome.no_key ∨
     (run envOk 0 rowA).outcome = Outcome.error) ∧
    processedCount ((runBatch envOk [rowA, rowB]).map RunResult.outcome) +
      skippedCount ((runBatch envOk [rowA, rowB]).map RunResult.outcome) +
      errorCount ((runBatch envOk [rowA, rowB]).map RunResult.outcome) = 2 :=
  ⟨(C1_outcome_counts_sum_to_batch envOk [rowA, rowB]).1 (run envOk 0 rowA) (by decide),
   (C1_outcome_counts_sum_to_batch envOk [rowA, rowB]).2⟩

/-- C2: in every state reachable under any interleaving of dispatches
and completions, at most `N` task bodies are in flight simultaneously
(`N` = the semaphore capacity `MAX_CONCURRENCY`, default 3). -/
theorem C2_at_most_N_inflight (N batch : Nat) (s : GateState)
    (h : GateReach N batch s) : runningCount s.tasks ≤ N := by
  have := (gate_invariant h).1
  omega

/-- C2 witness: with capacity `MAX_CONCURRENCY_DEFAULT = 3` and a batch
of 5, the state after one dispatch has at most 3 bodies in flight. -/
theorem C2_at_most_N_inflight_witness :
    runningCount (GateState.mk 4 2 [TaskState.running]).tasks ≤ 3 :=
  C2_at_most_N_inflight 3 5 _
    (GateReach.step GateReach.init
      (GateStep.dispatch ⟨5, 3, []⟩ (by decide) (by decide)))

/-- C3: in every reachable gate state the semaphore value plus the
in-flight count equals the capacity (each in-flight body holds exactly
the one permit acquired for it); the semaphore never exceeds its
capacity (no double release); every dispatched task has either released
exactly once or is still holding its permit; and whenever no body is in
flight — including after cancellations, which also exit through the
`finally` — all permits are back (no leak). -/
theorem C3_release_exactly_once (N batch : Nat) (s : GateState)
    (h : GateReach N batch s) :
    s.permits + runningCount s.tasks = N ∧
    s.permits ≤ N ∧
    releasedCount s.tasks + runningCount s.tasks = s.tasks.length ∧
    (runningCount s.tasks = 0 → s.permits = N) := by
  have hinv := (gate_invariant h).1
  have hp := running_released_partition s.tasks
  exact ⟨hinv, by omega, hp, by omega⟩

/-- C3 witness: dispatch one task and complete it by cancellation; the
permit is back and the accounting balances. -/
theorem C3_release_exactly_once_witness :
    (GateState.mk 1 3 [TaskState.completed]).permits +
      runningCount (GateState.mk 1 3 [TaskState.completed]).tasks = 3 ∧
    (GateState.mk 1 3 [TaskState.completed]).permits ≤ 3 ∧
    releasedCount (GateState.mk 1 3 [TaskState.completed]).tasks +
      runningCount (GateState.mk 1 3 [TaskState.completed]).tasks =
      (GateState.mk 1 3 [TaskState.completed]).tasks.length ∧
    (runningCount (GateState.mk 1 3 [TaskState.completed]).tasks = 0 →
      (GateState.mk 1 3 [TaskState.completed]).permits = 3) :=
  C3_release_exactly_once 3 2 _
    (GateReach.step
      (GateReach.step GateReach.init
        (GateStep.dispatch ⟨2, 3, []⟩ (by decide) (by decide)))
      (GateStep.finish ⟨1, 2, [TaskState.running]⟩ 0 CompletionKind.cancelled
        (by decide) (by decide)))

/-- C4 counterexample: under `envQueryFail` the store does hold a
recorded result for `rowA`'s id `"L1"`, but the existence-check query
raises, so the guard reports `false`: the item is not classified
Skipped and the transformation service is invoked. -/
theorem C4_counterexample_query_failure :
    0 < (envQueryFail.llmResponseRows "L1").length ∧
    (run envQueryFail 0 rowA).outcome ≠ Outcome.skipped ∧
    (run envQueryFail 0 rowA).invokedTransform = true := by decide

/-- C4 amended: an item whose identifier is present and whose
existence-check query succeeds and finds a recorded result is
classified Skipped and the transformation service is not invoked for
it; the guarantee does not extend to a failing existence check or an
absent identifier. -/
theorem C4_skip_when_already_processed (env : Env) (i : Nat) (row : Row)
    (s : String) (hid : row.lead_id = some s) (hs : s ≠ "")
    (hq : env.llmQueryFails s = false)
    (hr : 0 < (env.llmResponseRows s).length) :
    (run env i row).outcome = Outcome.skipped ∧
    (run env i row).invokedTransform = false := by
  have hlp : lead_already_processed env row.lead_id = true := by
    rw [hid]
    unfold lead_already_processed
    simp [hs, hq, List.length_take]
    omega
  unfold run
  rw [hlp]
  simp

/-- C4 witness: in `envOk`, `rowA` has a recorded result and the check
succeeds, so it is Skipped without a transformation call. -/
theorem C4_skip_when_already_processed_witness :
    (run envOk 0 rowA).outcome = Outcome.skipped ∧
    (run envOk 0 rowA).invokedTransform = false :=
  C4_skip_when_already_processed envOk 0 rowA "L1" rfl (by decide) rfl
    (by decide)

/-- C5 counterexample: the credential-pool query succeeds and the pool
is non-empty, yet the accessor returns none, because the chosen row's
`api_key` column is null. -/
theorem C5_counterexample_null_key_row :
    envNullKeyRow.geminiQueryFails = false ∧
    envNullKeyRow.geminiRows ≠ [] ∧
    pick_random_api_key envNullKeyRow 0 = none := by decide

/-- C5 amended: the accessor reads the pool afresh on the invocation it
models (the pool is an input of every call, never cached); it returns
none when the query raises or the pool is empty; when the query
succeeds on a non-empty pool it returns exactly the `api_key` field of
the row at the uniformly drawn index — which is none if that column is
null — and any credential it returns is an element of the fetched
pool. -/
theorem C5_pick_characterization (env : Env) (c : Nat) :
    (env.geminiQueryFails = true → pick_random_api_key env c = none) ∧
    (env.geminiRows = [] → pick_random_api_key env c = none) ∧
    (env.geminiQueryFails = false → env.geminiRows ≠ [] →
      pick_random_api_key env c =
        env.geminiRows.getD (c % env.geminiRows.length) none) ∧
    (∀ k, pick_random_api_key env c = some k → some k ∈ env.geminiRows) := by
  refine ⟨?_, ?_, ?_, ?_⟩
  · intro hfail
    unfold pick_random_api_key
    rw [hfail]
    simp
  · intro hempty
    unfold pick_random_api_key
    rw [hempty]
    simp
  · intro hfail hne
    unfold pick_random_api_key
    rw [hfail]
    simp [List.isEmpty_iff, hne]
  · intro k hk
    by_cases hfail : env.geminiQueryFails
    · unfold pick_random_api_key at hk
      rw [hfail] at hk
      simp at hk
    · by_cases hempty : env.geminiRows = []
      · unfold pick_random_api_key at hk
        rw [hempty] at hk
        simp at hk
      · unfold pick_random_api_key at hk
        simp only [hfail, List.isEmpty_iff, hempty, if_false, ite_false] at hk
        have hlen : 0 < env.geminiRows.length := List.length_pos.mpr hempty
        have hlt : c % env.geminiRows.length < env.geminiRows.length :=
          Nat.mod_lt _ hlen
        rw [List.getD_eq_getElem _ _ hlt] at hk
        rw [← hk]
        exact List.getElem_mem hlt

/-- C5 witness: on `envOk`'s two-key pool with drawn index 5 the
accessor returns the `api_key` of row `5 % 2 = 1`. -/
theorem C5_pick_characterization_witness :
    pick_random_api_key envOk 5 =
      envOk.geminiRows.getD (5 % envOk.geminiRows.length) none :=
  (C5_pick_characterization envOk 5).2.2.1 rfl (by decide)

/-- C6 counterexample: when the fetch raises, the cycle-level handler
emits no log event and no summary at all — the exception is swallowed
silently, not logged — before sleeping the poll interval. -/
theorem C6_counterexample_no_log_on_cycle_error :
    (workerCycle envFetchErr).logs = [] ∧
    (workerCycle envFetchErr).summary = none ∧
    (workerCycle envFetchErr).sleeps = [SleepEvent.poll] := by decide

/-- C6 amended: an exception escaping the fetch step is caught at cycle
scope (without emitting any log event or summary), followed by a sleep
of the configured poll interval, and the loop goes on to the next
cycle — it runs all `n` cycles and never terminates on such an
error. -/
theorem C6_catch_sleep_retry (envs : Nat → Env) (n i : Nat) (hi : i < n)
    (he : (envs i).fetchResult = Except.error ()) :
    (workerLoop envs n).length = n ∧
    (workerLoop envs n)[i]? =
      some { logs := [], summary := none, sleeps := [SleepEvent.poll] } := by
  constructor
  · simp [workerLoop]
  · have hget : (workerLoop envs n)[i]? = some (workerCycle (envs i)) := by
      unfold workerLoop
      rw [List.getElem?_map, List.getElem?_range hi]
      rfl
    rw [hget]
    unfold workerCycle
    rw [he]

/-- C6 witness: a loop of one cycle over a raising fetch runs the cycle
and produces the silent sleep-and-retry output. -/
theorem C6_catch_sleep_retry_witness :
    (workerLoop (fun _ => envFetchErr) 1).length = 1 ∧
    (workerLoop (fun _ => envFetchErr) 1)[0]? =
      some { logs := [], summary := none, sleeps := [SleepEvent.poll] } :=
  C6_catch_sleep_retry (fun _ => envFetchErr) 1 0 (by decide) rfl

/-- C7: the events a task body logs are exactly one `SKIP` when the
outcome is Skipped; a `START` followed by a `DONE` with the same
identifier when Processed; a `START` followed by an `ERROR` (and no
`DONE`) when Error; and nothing when NoKey. -/
theorem C7_log_events_per_outcome (env : Env) (i : Nat) (row : Row) :
    ((run env i row).outcome = Outcome.skipped →
      (run env i row).logs = [⟨Phase.SKIP, row.lead_id, row.name, none⟩]) ∧
    ((run env i row).outcome = Outcome.processed →
      ∃ k, (run env i row).logs =
        [⟨Phase.START, row.lead_id, row.name, some k⟩,
         ⟨Phase.DONE, row.lead_id, row.name, some k⟩]) ∧
    ((run env i row).outcome = Outcome.error →
      ∃ k, (run env i row).logs =
        [⟨Phase.START, row.lead_id, row.name, some k⟩,
         ⟨Phase.ERROR, row.lead_id, row.name, some k⟩] ∧
      ∀ e ∈ (run env i row).logs, e.phase ≠ Phase.DONE) ∧
    ((run env i row).outcome = Outcome.no_key → (run env i row).logs = []) := by
  unfold run
  split
  next hskip =>
    refine ⟨fun _ => rfl, ?_, ?_, ?_⟩ <;> intro hc <;> simp at hc
  next hskip =>
    split
    next hpick =>
      refine ⟨?_, ?_, ?_, fun _ => rfl⟩ <;> intro hc <;> simp at hc
    next k hpick =>
      split
      next hke =>
        refine ⟨?_, ?_, ?_, fun _ => rfl⟩ <;> intro hc <;> simp at hc
      next hke =>
        split
        next u hok =>
          refine ⟨?_, fun _ => ⟨k, rfl⟩, ?_, ?_⟩ <;> intro hc <;> simp at hc
        next e herr =>
          refine ⟨?_, ?_, fun _ => ⟨k, rfl, ?_⟩, ?_⟩
          · intro hc; simp at hc
          · intro hc; simp at hc
          · intro ev hev
            simp only [List.mem_cons, List.not_mem_nil, or_false] at hev
            rcases hev with rfl | rfl <;> simp
          · intro hc; simp at hc

/-- C7 witness: `rowA` is Skipped under `envOk` with exactly its `SKIP`
line, and under the empty-pool environment the fresh `rowB` is NoKey
with no log line. -/
theorem C7_log_events_per_outcome_witness :
    (run envOk 0 rowA).logs = [⟨Phase.SKIP, some "L1", some "Ann", none⟩] ∧
    (run envNoKeyCycle 0 rowB).logs = [] :=
  ⟨(C7_log_events_per_outcome envOk 0 rowA).1 (by decide),
   (C7_log_events_per_outcome envNoKeyCycle 0 rowB).2.2.2 (by decide)⟩

/-- C8: a cycle whose fetch returns an empty batch prints the all-zero
`CYCLE` summary and sleeps the configured poll interval before the next
fetch; no task runs, so no log event is emitted. -/
theorem C8_empty_fetch_zero_summary (env : Env)
    (h : env.fetchResult = Except.ok []) :
    workerCycle env =
      { logs := []
        summary := some ⟨0, 0, 0, 0, env.elapsed⟩
        sleeps := [SleepEvent.poll] } := by
  unfold workerCycle
  rw [h]
  rfl

/-- C8 witness: the concrete empty-fetch environment produces the
all-zero summary and the poll-interval sleep. -/
theorem C8_empty_fetch_zero_summary_witness :
    workerCycle envEmptyFetch =
      { logs := []
        summary := some ⟨0, 0, 0, 0, 7⟩
        sleeps := [SleepEvent.poll] } :=
  C8_empty_fetch_zero_summary envEmptyFetch rfl

/-- C9 counterexample: a one-row cycle whose single outcome is NoKey,
with no item Skipped, is summarised as `skipped=1`: the printed summary
pools NoKey into the skipped count and carries no separate NoKey
field. -/
theorem C9_counterexample_no_key_pooled :
    (runBatch envNoKeyCycle [rowC]).map RunResult.outcome = [Outcome.no_key] ∧
    ((runBatch envNoKeyCycle [rowC]).map RunResult.outcome).countP
      (fun r => r == Outcome.skipped) = 0 ∧
    (workerCycle envNoKeyCycle).summary = some ⟨1, 0, 1, 0, 4⟩ := by decide

/-- C9 amended: a non-empty cycle's summary carries the total fetched,
the Processed count, a combined count pooling Skipped with NoKey, the
Error count, and the elapsed wall time; NoKey is not reported
separately from Skipped. -/
theorem C9_summary_fields (env : Env) (rows : List Row)
    (hf : env.fetchResult = Except.ok rows) (hne : rows ≠ []) :
    (workerCycle env).summary =
      some ⟨rows.length,
            processedCount ((runBatch env rows).map RunResult.outcome),
            skippedCount ((runBatch env rows).map RunResult.outcome),
            errorCount ((runBatch env rows).map RunResult.outcome),
            env.elapsed⟩ := by
  unfold workerCycle
  rw [hf]
  simp [List.isEmpty_iff, hne]

/-- C9 witness: the two-row `envOk` cycle is summarised with total 2,
one processed, one skipped, no errors, and the elapsed reading. -/
theorem C9_summary_fields_witness :
    (workerCycle envOk).summary = some ⟨2, 1, 1, 0, 7⟩ := by
  have h := C9_summary_fields envOk [rowA, rowB] rfl (by decide)
  simpa using h

/-- C10: an item with a missing or empty identifier is reported as not
yet processed by the idempotency guard regardless of the store's
contents, hence is never classified Skipped, and — when the credential
pick yields a non-empty key — the transformation service is
invoked for it. -/
theorem C10_absent_id_not_skipped (env : Env) (i : Nat) (row : Row)
    (h : row.lead_id = none ∨ row.lead_id = some "") :
    lead_already_processed env row.lead_id = false ∧
    (run env i row).outcome ≠ Outcome.skipped ∧
    (∀ k, pick_random_api_key env (env.choice i) = some k → k ≠ "" →
      (run env i row).invokedTransform = true) := by
  have hlp : lead_already_processed env row.lead_id = false := by
    rcases h with h | h <;> rw [h] <;> simp [lead_already_processed]
  refine ⟨hlp, ?_, ?_⟩
  · unfold run
    rw [hlp]
    simp only [Bool.false_eq_true, if_false]
    split
    · simp
    · split
      · simp
      · split <;> simp
  · intro k hk hke
    unfold run
    rw [hlp]
    simp only [Bool.false_eq_true, if_false, hk]
    rw [if_neg hke]
    split <;> rfl

/-- C10 witness: the id-less `rowNoId` under `envOk` (whose store does
hold results) is not Skipped, and key `"K1"` takes it to the
transformation call. -/
theorem C10_absent_id_not_skipped_witness :
    lead_already_processed envOk rowNoId.lead_id = false ∧
    (run envOk 0 rowNoId).outcome ≠ Outcome.skipped ∧
    (run envOk 0 rowNoId).invokedTransform = true :=
  ⟨(C10_absent_id_not_skipped envOk 0 rowNoId (Or.inl rfl)).1,
   (C10_absent_id_not_skipped envOk 0 rowNoId (Or.inl rfl)).2.1,
   (C10_absent_id_not_skipped envOk 0 rowNoId (Or.inl rfl)).2.2 "K1"
     (by decide) (by decide)⟩

end Worker
